import Mathlib

/-!
Verification of the Victoriabank MIA SDK request-validation and dispatch
layer (`victoriabank_mia_api.py`), a shallow embedding in Lean 4.

Modelling choices:
* A Python `dict` payload is an association list `Dict`; an entry whose value
  is the Python `None` is a pair `(k, none)`. A payload argument that may be
  the Python `None` itself is an `Option Dict`, and likewise string arguments
  that may be `None` are `Option String`.
* The transport client (`VictoriabankMiaSdk`, a separate module treated by the
  code as an external collaborator) is a structure of two functions:
  `send_request`, which may fail with a transport exception (modelled by its
  message string), and `handle_response`. Response and result types are
  abstract parameters `ρ` and `σ`.
* Each operation returns the list of `send_request` invocations it performed
  (the trace) together with its outcome, so "the transport send is never
  invoked" is the trace being empty. A raised `VictoriabankPaymentException`
  is `Except.error (ApiError.payment msg cause)`; the `cause` is the wrapped
  exception of Python's `raise ... from ex`, when present.
-/

/-- A Python dict, as an association list from field names to values; a value
`none` models a field explicitly mapped to the Python `None`. -/
def Dict : Type := List (String × Option String)

instance : DecidableEq Dict := inferInstanceAs (DecidableEq (List (String × Option String)))

/-- `d.get(k)` of a Python dict: `none` when the key is absent or when it is
mapped to the Python `None`, exactly as `data.get(param) is None` conflates. -/
def dictGet (d : Dict) (k : String) : Option String :=
  match d.find? (fun p => p.1 == k) with
  | none => none
  | some p => p.2

/-- Python truthiness of an optional dict: `None` and the empty dict are falsy. -/
def dictTruthy : Option Dict → Bool
  | none => false
  | some d => !(List.isEmpty d)

/-- Python truthiness of an optional list: `None` and the empty list are falsy. -/
def listTruthy : Option (List String) → Bool
  | none => false
  | some l => !l.isEmpty

/-- Python truthiness of an optional string: `None` and `""` are falsy. -/
def strTruthy : Option String → Bool
  | none => false
  | some s => !(s == "")

/-- The arguments of one `send_request` call on the transport client. -/
structure SendArgs where
  method : String
  url : String
  data : Option Dict
  params : Option Dict
  token : Option String
  entity_id : Option String
deriving DecidableEq

/-- The exception surfaced to the caller of an operation. `payment` is the
domain `VictoriabankPaymentException` with its message and, when raised with
`from ex`, its cause; `transportLeak` is a raw transport exception escaping
uncaught, a shape Python allows and the dispatcher must never produce. -/
inductive ApiError where
  | payment (msg : String) (cause : Option String)
  | transportLeak (ex : String)
deriving DecidableEq

/-- Modelled from the spec: the Transport Client contract (the
`victoriabank_mia_sdk` module is not part of the analysed source).
`send_request` builds and sends the HTTP request and may raise a transport
exception, modelled by its message string; `handle_response` maps the raw
response and the endpoint to the decoded result. -/
structure VictoriabankMiaSdk (ρ σ : Type) where
  send_request : SendArgs → Except String ρ
  handle_response : ρ → String → σ

/-- Modelled from the spec: the named QR-create endpoint reference. -/
def VictoriabankMiaSdk.MIA_QR : String := "api/v1/qr"

/-- Modelled from the spec: the named QR-status endpoint reference. -/
def VictoriabankMiaSdk.MIA_QR_STATUS : String := "api/v1/qr/entity/status"

/-- Modelled from the spec: the named QR-cancel endpoint reference. -/
def VictoriabankMiaSdk.MIA_QR_ID : String := "api/v1/qr/entity"

/-- Modelled from the spec: the named QR-extension-create endpoint reference. -/
def VictoriabankMiaSdk.MIA_QR_EXTENSIONS : String := "api/v1/qr/entity/extentions"

/-- Modelled from the spec: the named QR-extension-cancel endpoint reference. -/
def VictoriabankMiaSdk.MIA_QR_ACTIVE_EXTENSION : String := "api/v1/qr/entity/active_extension"

/-- Modelled from the spec: the named QR-extension-status endpoint reference. -/
def VictoriabankMiaSdk.MIA_QR_EXTENSION_STATUS : String := "api/v1/qr/extensions/entity/status"

/-- Modelled from the spec: the named transaction-list endpoint reference. -/
def VictoriabankMiaSdk.MIA_TRANSACTIONS_LIST : String := "api/v1/reconciliation/transactions"

/-- Modelled from the spec: the named demo-pay simulation endpoint reference. -/
def VictoriabankMiaSdk.SANDBOX_DEMOPAY_URL : String := "api/Pay"

/-- Modelled from the spec: the named payment-details endpoint reference. -/
def VictoriabankMiaSdk.MIA_PAYMENTS_ID : String := "api/v1/payments/entity"

/-- Modelled from the spec: the named payment-refund endpoint reference. -/
def VictoriabankMiaSdk.MIA_PAYMENTS_REFUND : String := "api/v1/payments/entity/refund"

/-- Modelled from the spec: the named payment-list endpoint reference. -/
def VictoriabankMiaSdk.MIA_PAYMENTS : String := "api/v1/payments"

/-- `VictoriabankMiaApi`: the dispatcher, holding its transport client. -/
structure VictoriabankMiaApi (ρ σ : Type) where
  _client : VictoriabankMiaSdk ρ σ

/-- `REQUIRED_QR_PARAMS = ['header', 'extension']`. -/
def VictoriabankMiaApi.REQUIRED_QR_PARAMS : List String := ["header", "extension"]

/-- `REQUIRED_TEST_PAY_PARAMS = ['qrHeaderUUID']`. -/
def VictoriabankMiaApi.REQUIRED_TEST_PAY_PARAMS : List String := ["qrHeaderUUID"]

/-- The `for param in required_params` loop of `_validate_params`: raise on the
first required field whose `data.get(param) is None`. -/
def VictoriabankMiaApi.requiredLoop (d : Dict) : List String → Except String Unit
  | [] => Except.ok ()
  | p :: ps =>
    if dictGet d p = none then Except.error ("Missing required parameter: " ++ p)
    else VictoriabankMiaApi.requiredLoop d ps

/-- `_validate_params(data, required_params)`: only when both `data` and
`required_params` are truthy does the required-field loop run; otherwise the
check is skipped and `True` is returned. -/
def VictoriabankMiaApi._validate_params (data : Option Dict)
    (required_params : Option (List String)) : Except String Bool :=
  if dictTruthy data && listTruthy required_params then
    match data, required_params with
    | some d, some ps => (VictoriabankMiaApi.requiredLoop d ps).map (fun _ => true)
    | _, _ => Except.ok true
  else Except.ok true

/-- `_validate_access_token(token)`: `if not token or len(token) == 0: raise`. -/
def VictoriabankMiaApi._validate_access_token (token : Option String) : Except String Unit :=
  if !(strTruthy token) || (token.getD "").length == 0 then
    Except.error "Access token is not valid. It should be a non-empty string."
  else Except.ok ()

/-- `_validate_id_param(entity_id)`: `if not entity_id: raise 'Missing ID.'`,
then `if len(entity_id) == 0: raise 'Invalid ID parameter. ...'`. -/
def VictoriabankMiaApi._validate_id_param (entity_id : Option String) : Except String Unit :=
  if !(strTruthy entity_id) then
    Except.error "Missing ID."
  else if (entity_id.getD "").length == 0 then
    Except.error "Invalid ID parameter. Should be string of 36 characters."
  else Except.ok ()

/-- `_send_request`: invoke the client's `send_request`; wrap any exception it
raises into `VictoriabankPaymentException(f'HTTP error while sending {method}
request to endpoint {endpoint}: {ex}') from ex`; on success return
`handle_response(response, endpoint)`. The first component records the
`send_request` invocations performed. -/
def VictoriabankMiaApi._send_request {ρ σ : Type} (client : VictoriabankMiaSdk ρ σ)
    (method : String) (endpoint : String) (token : Option String)
    (data : Option Dict) (params : Option Dict) (entity_id : Option String) :
    List SendArgs × Except ApiError σ :=
  let args : SendArgs :=
    { method := method, url := endpoint, data := data, params := params,
      token := token, entity_id := entity_id }
  match client.send_request args with
  | Except.error ex =>
      ([args], Except.error (ApiError.payment
        ("HTTP error while sending " ++ method ++ " request to endpoint "
          ++ endpoint ++ ": " ++ ex) (some ex)))
  | Except.ok response => ([args], Except.ok (client.handle_response response endpoint))

/-- `_execute_operation`: validate params, then token, then dispatch. -/
def VictoriabankMiaApi._execute_operation {ρ σ : Type} (api : VictoriabankMiaApi ρ σ)
    (endpoint : String) (data : Option Dict) (token : Option String)
    (required_params : Option (List String)) (method : String) (params : Option Dict) :
    List SendArgs × Except ApiError σ :=
  match VictoriabankMiaApi._validate_params data required_params with
  | Except.error m => ([], Except.error (ApiError.payment m none))
  | Except.ok _ =>
    match VictoriabankMiaApi._validate_access_token token with
    | Except.error m => ([], Except.error (ApiError.payment m none))
    | Except.ok _ =>
      VictoriabankMiaApi._send_request api._client method endpoint token data params none

/-- `_execute_entity_id_operation`: validate the id, then token, then dispatch. -/
def VictoriabankMiaApi._execute_entity_id_operation {ρ σ : Type} (api : VictoriabankMiaApi ρ σ)
    (endpoint : String) (entity_id : Option String) (token : Option String)
    (method : String) (data : Option Dict) (params : Option Dict) :
    List SendArgs × Except ApiError σ :=
  match VictoriabankMiaApi._validate_id_param entity_id with
  | Except.error m => ([], Except.error (ApiError.payment m none))
  | Except.ok _ =>
    match VictoriabankMiaApi._validate_access_token token with
    | Except.error m => ([], Except.error (ApiError.payment m none))
    | Except.ok _ =>
      VictoriabankMiaApi._send_request api._client method endpoint token data params entity_id

/-- `qr_create(data, params, token)`: POST to `MIA_QR` with required fields
`header` and `extension`. -/
def VictoriabankMiaApi.qr_create {ρ σ : Type} (api : VictoriabankMiaApi ρ σ)
    (data : Option Dict) (params : Option Dict) (token : Option String) :
    List SendArgs × Except ApiError σ :=
  api._execute_operation VictoriabankMiaSdk.MIA_QR data token
    (some VictoriabankMiaApi.REQUIRED_QR_PARAMS) "POST" params

/-- `qr_status(qr_id, params, token)`: GET to `MIA_QR_STATUS`. -/
def VictoriabankMiaApi.qr_status {ρ σ : Type} (api : VictoriabankMiaApi ρ σ)
    (qr_id : Option String) (params : Option Dict) (token : Option String) :
    List SendArgs × Except ApiError σ :=
  api._execute_entity_id_operation VictoriabankMiaSdk.MIA_QR_STATUS qr_id token "GET" none params

/-- `qr_cancel(qr_id, token)`: DELETE to `MIA_QR_ID`. -/
def VictoriabankMiaApi.qr_cancel {ρ σ : Type} (api : VictoriabankMiaApi ρ σ)
    (qr_id : Option String) (token : Option String) :
    List SendArgs × Except ApiError σ :=
  api._execute_entity_id_operation VictoriabankMiaSdk.MIA_QR_ID qr_id token "DELETE" none none

/-- `qr_create_extension(qr_id, data, token)`: POST to `MIA_QR_EXTENSIONS`. -/
def VictoriabankMiaApi.qr_create_extension {ρ σ : Type} (api : VictoriabankMiaApi ρ σ)
    (qr_id : Option String) (data : Option Dict) (token : Option String) :
    List SendArgs × Except ApiError σ :=
  api._execute_entity_id_operation VictoriabankMiaSdk.MIA_QR_EXTENSIONS qr_id token "POST" data none

/-- `qr_cancel_extension(qr_id, token)`: DELETE to `MIA_QR_ACTIVE_EXTENSION`. -/
def VictoriabankMiaApi.qr_cancel_extension {ρ σ : Type} (api : VictoriabankMiaApi ρ σ)
    (qr_id : Option String) (token : Option String) :
    List SendArgs × Except ApiError σ :=
  api._execute_entity_id_operation VictoriabankMiaSdk.MIA_QR_ACTIVE_EXTENSION qr_id token
    "DELETE" none none

/-- `qr_extension_status(qr_extension_id, params, token)`: GET to
`MIA_QR_EXTENSION_STATUS`. -/
def VictoriabankMiaApi.qr_extension_status {ρ σ : Type} (api : VictoriabankMiaApi ρ σ)
    (qr_extension_id : Option String) (params : Option Dict) (token : Option String) :
    List SendArgs × Except ApiError σ :=
  api._execute_entity_id_operation VictoriabankMiaSdk.MIA_QR_EXTENSION_STATUS qr_extension_id
    token "GET" none params

/-- `transactions_list(params, token)`: GET to `MIA_TRANSACTIONS_LIST`. -/
def VictoriabankMiaApi.transactions_list {ρ σ : Type} (api : VictoriabankMiaApi ρ σ)
    (params : Option Dict) (token : Option String) :
    List SendArgs × Except ApiError σ :=
  api._execute_operation VictoriabankMiaSdk.MIA_TRANSACTIONS_LIST none token none "GET" params

/-- `test_pay(data, token)`: POST to `SANDBOX_DEMOPAY_URL` with required field
`qrHeaderUUID`. -/
def VictoriabankMiaApi.test_pay {ρ σ : Type} (api : VictoriabankMiaApi ρ σ)
    (data : Option Dict) (token : Option String) :
    List SendArgs × Except ApiError σ :=
  api._execute_operation VictoriabankMiaSdk.SANDBOX_DEMOPAY_URL data token
    (some VictoriabankMiaApi.REQUIRED_TEST_PAY_PARAMS) "POST" none

/-- `payment_details(pay_id, token)`: GET to `MIA_PAYMENTS_ID`. -/
def VictoriabankMiaApi.payment_details {ρ σ : Type} (api : VictoriabankMiaApi ρ σ)
    (pay_id : Option String) (token : Option String) :
    List SendArgs × Except ApiError σ :=
  api._execute_entity_id_operation VictoriabankMiaSdk.MIA_PAYMENTS_ID pay_id token "GET" none none

/-- `payment_refund(pay_id, data, token)`: POST to `MIA_PAYMENTS_REFUND`. -/
def VictoriabankMiaApi.payment_refund {ρ σ : Type} (api : VictoriabankMiaApi ρ σ)
    (pay_id : Option String) (data : Option Dict) (token : Option String) :
    List SendArgs × Except ApiError σ :=
  api._execute_entity_id_operation VictoriabankMiaSdk.MIA_PAYMENTS_REFUND pay_id token
    "POST" data none

/-- `payment_list(params, token)`: GET to `MIA_PAYMENTS`. -/
def VictoriabankMiaApi.payment_list {ρ σ : Type} (api : VictoriabankMiaApi ρ σ)
    (params : Option Dict) (token : Option String) :
    List SendArgs × Except ApiError σ :=
  api._execute_operation VictoriabankMiaSdk.MIA_PAYMENTS none token none "GET" params

deriving instance DecidableEq for Except

/-- A concrete transport client used to evaluate the embedding at concrete
inputs: every send succeeds with response `0`, and `handle_response` is the
successor of the response. -/
def okClient : VictoriabankMiaSdk Nat Nat :=
  { send_request := fun _ => Except.ok 0, handle_response := fun r _ => r + 1 }

/-- A concrete transport client whose send always raises the transport
exception `"boom"`. -/
def failClient : VictoriabankMiaSdk Nat Nat :=
  { send_request := fun _ => Except.error "boom", handle_response := fun r _ => r + 1 }


/-- The eleven public operations of the dispatcher, one constructor per
method of `VictoriabankMiaApi`. -/
inductive OpName where
  | qrCreate
  | qrStatus
  | qrCancel
  | qrCreateExtension
  | qrCancelExtension
  | qrExtensionStatus
  | transactionsList
  | testPay
  | paymentDetails
  | paymentRefund
  | paymentList
deriving DecidableEq

/-- The caller-supplied arguments of an operation other than the token:
an entity identifier, a payload and query parameters (each operation uses
the subset its Python signature declares). -/
structure CallArgs where
  entity : Option String
  data : Option Dict
  params : Option Dict
deriving DecidableEq

/-- Call the named public operation of the dispatcher with the given
arguments, each operation receiving exactly the arguments of its Python
signature. -/
def callOperation {ρ σ : Type} (api : VictoriabankMiaApi ρ σ) (op : OpName)
    (a : CallArgs) (token : Option String) : List SendArgs × Except ApiError σ :=
  match op with
  | OpName.qrCreate => api.qr_create a.data a.params token
  | OpName.qrStatus => api.qr_status a.entity a.params token
  | OpName.qrCancel => api.qr_cancel a.entity token
  | OpName.qrCreateExtension => api.qr_create_extension a.entity a.data token
  | OpName.qrCancelExtension => api.qr_cancel_extension a.entity token
  | OpName.qrExtensionStatus => api.qr_extension_status a.entity a.params token
  | OpName.transactionsList => api.transactions_list a.params token
  | OpName.testPay => api.test_pay a.data token
  | OpName.paymentDetails => api.payment_details a.entity token
  | OpName.paymentRefund => api.payment_refund a.entity a.data token
  | OpName.paymentList => api.payment_list a.params token

/-- The operations that take an entity identifier (the
`_execute_entity_id_operation` call shape). -/
def isEntityIdOperation : OpName → Bool
  | OpName.qrStatus => true
  | OpName.qrCancel => true
  | OpName.qrCreateExtension => true
  | OpName.qrCancelExtension => true
  | OpName.qrExtensionStatus => true
  | OpName.paymentDetails => true
  | OpName.paymentRefund => true
  | _ => false

/-- The HTTP verb each operation dispatches with (the spec's operation table). -/
def opMethod : OpName → String
  | OpName.qrCreate => "POST"
  | OpName.qrStatus => "GET"
  | OpName.qrCancel => "DELETE"
  | OpName.qrCreateExtension => "POST"
  | OpName.qrCancelExtension => "DELETE"
  | OpName.qrExtensionStatus => "GET"
  | OpName.transactionsList => "GET"
  | OpName.testPay => "POST"
  | OpName.paymentDetails => "GET"
  | OpName.paymentRefund => "POST"
  | OpName.paymentList => "GET"

/-- The endpoint reference each operation dispatches to. -/
def opEndpoint : OpName → String
  | OpName.qrCreate => VictoriabankMiaSdk.MIA_QR
  | OpName.qrStatus => VictoriabankMiaSdk.MIA_QR_STATUS
  | OpName.qrCancel => VictoriabankMiaSdk.MIA_QR_ID
  | OpName.qrCreateExtension => VictoriabankMiaSdk.MIA_QR_EXTENSIONS
  | OpName.qrCancelExtension => VictoriabankMiaSdk.MIA_QR_ACTIVE_EXTENSION
  | OpName.qrExtensionStatus => VictoriabankMiaSdk.MIA_QR_EXTENSION_STATUS
  | OpName.transactionsList => VictoriabankMiaSdk.MIA_TRANSACTIONS_LIST
  | OpName.testPay => VictoriabankMiaSdk.SANDBOX_DEMOPAY_URL
  | OpName.paymentDetails => VictoriabankMiaSdk.MIA_PAYMENTS_ID
  | OpName.paymentRefund => VictoriabankMiaSdk.MIA_PAYMENTS_REFUND
  | OpName.paymentList => VictoriabankMiaSdk.MIA_PAYMENTS

/-- The payload each operation forwards to the transport as the request body. -/
def opSendData (op : OpName) (a : CallArgs) : Option Dict :=
  match op with
  | OpName.qrCreate => a.data
  | OpName.qrCreateExtension => a.data
  | OpName.testPay => a.data
  | OpName.paymentRefund => a.data
  | _ => none

/-- The query parameters each operation forwards to the transport. -/
def opSendParams (op : OpName) (a : CallArgs) : Option Dict :=
  match op with
  | OpName.qrCreate => a.params
  | OpName.qrStatus => a.params
  | OpName.qrExtensionStatus => a.params
  | OpName.transactionsList => a.params
  | OpName.paymentList => a.params
  | _ => none

/-- The entity identifier each operation forwards to the transport. -/
def opSendEntity (op : OpName) (a : CallArgs) : Option String :=
  if isEntityIdOperation op then a.entity else none

/-- The operation-specific validation (everything checked before the token):
for the payload operations with required fields, that `_validate_params`
accepts the payload; for the identifier operations, that the identifier is
truthy; nothing for the remaining operations. -/
def validNonTokenInputs (op : OpName) (a : CallArgs) : Prop :=
  match op with
  | OpName.qrCreate =>
      VictoriabankMiaApi._validate_params a.data
        (some VictoriabankMiaApi.REQUIRED_QR_PARAMS) = Except.ok true
  | OpName.testPay =>
      VictoriabankMiaApi._validate_params a.data
        (some VictoriabankMiaApi.REQUIRED_TEST_PAY_PARAMS) = Except.ok true
  | OpName.transactionsList => True
  | OpName.paymentList => True
  | _ => strTruthy a.entity = true

instance (op : OpName) (a : CallArgs) : Decidable (validNonTokenInputs op a) := by
  unfold validNonTokenInputs
  cases op <;> infer_instance

/-- A nonempty string has nonzero length. -/
lemma length_ne_zero_of_ne_empty {s : String} (h : s ≠ "") : s.length ≠ 0 := by
  intro hz
  apply h
  cases s with
  | mk data =>
    cases data with
    | nil => rfl
    | cons c cs => simp [String.length] at hz

/-- A truthy token passes `_validate_access_token`. -/
lemma validate_access_token_ok_of_truthy {token : Option String}
    (h : strTruthy token = true) :
    VictoriabankMiaApi._validate_access_token token = Except.ok () := by
  cases token with
  | none => simp [strTruthy] at h
  | some t =>
    have ht : t ≠ "" := by
      intro he
      subst he
      simp [strTruthy] at h
    have hl : t.length ≠ 0 := length_ne_zero_of_ne_empty ht
    simp [VictoriabankMiaApi._validate_access_token, strTruthy, ht, hl]

/-- A falsy token fails `_validate_access_token` with the token error. -/
lemma validate_access_token_fail_of_falsy {token : Option String}
    (h : strTruthy token = false) :
    VictoriabankMiaApi._validate_access_token token =
      Except.error "Access token is not valid. It should be a non-empty string." := by
  simp [VictoriabankMiaApi._validate_access_token, h]

/-- A truthy identifier passes `_validate_id_param`. -/
lemma validate_id_ok_of_truthy {entity_id : Option String}
    (h : strTruthy entity_id = true) :
    VictoriabankMiaApi._validate_id_param entity_id = Except.ok () := by
  cases entity_id with
  | none => simp [strTruthy] at h
  | some s =>
    have hs : s ≠ "" := by
      intro he
      subst he
      simp [strTruthy] at h
    have hl : s.length ≠ 0 := length_ne_zero_of_ne_empty hs
    simp [VictoriabankMiaApi._validate_id_param, strTruthy, hs, hl]

/-- A falsy identifier fails `_validate_id_param` with the missing-id error. -/
lemma validate_id_fail_of_falsy {entity_id : Option String}
    (h : strTruthy entity_id = false) :
    VictoriabankMiaApi._validate_id_param entity_id = Except.error "Missing ID." := by
  simp [VictoriabankMiaApi._validate_id_param, h]

/-- The required-field loop errors out naming the first field of the list that
`data.get` maps to the Python `None`. -/
lemma requiredLoop_error_of_find {d : Dict} {ps : List String} {f : String}
    (h : ps.find? (fun p => (dictGet d p).isNone) = some f) :
    VictoriabankMiaApi.requiredLoop d ps =
      Except.error ("Missing required parameter: " ++ f) := by
  induction ps with
  | nil => simp [List.find?] at h
  | cons p ps ih =>
    by_cases hp : dictGet d p = none
    · have hb : (dictGet d p).isNone = true := by simp [hp]
      have : f = p := by
        rw [List.find?] at h
        rw [hb] at h
        exact (Option.some.inj h).symm
      subst this
      simp [VictoriabankMiaApi.requiredLoop, hp]
    · have hb : (dictGet d p).isNone = false := by
        cases hv : dictGet d p with
        | none => exact absurd hv hp
        | some v => simp
      rw [List.find?] at h
      rw [hb] at h
      simp [VictoriabankMiaApi.requiredLoop, hp, ih h]

/-- `_validate_params` fails, naming the first missing field, whenever the
payload dict is nonempty and some listed required field is missing. -/
lemma validate_params_error_of_find {d : Dict} {ps : List String} {f : String}
    (hd : d ≠ []) (h : ps.find? (fun p => (dictGet d p).isNone) = some f) :
    VictoriabankMiaApi._validate_params (some d) (some ps) =
      Except.error ("Missing required parameter: " ++ f) := by
  have hde : List.isEmpty d = false := by
    cases d with
    | nil => exact absurd rfl hd
    | cons x xs => rfl
  have hpne : ps ≠ [] := by
    intro he
    subst he
    simp [List.find?] at h
  have hpe : ps.isEmpty = false := by
    cases ps with
    | nil => exact absurd rfl hpne
    | cons x xs => rfl
  simp [VictoriabankMiaApi._validate_params, dictTruthy, listTruthy, hde, hpe,
    requiredLoop_error_of_find h, Except.map]

/-- A falsy payload (`None` or the empty dict) passes `_validate_params`
without running the required-field loop. -/
lemma validate_params_skip_of_falsy {data : Option Dict}
    (h : dictTruthy data = false) (required_params : Option (List String)) :
    VictoriabankMiaApi._validate_params data required_params = Except.ok true := by
  unfold VictoriabankMiaApi._validate_params
  rw [h]
  simp

/-- The trace of `_send_request` is always exactly one call, with the given
arguments, whether the transport send succeeds or raises. -/
lemma send_request_trace {ρ σ : Type} (client : VictoriabankMiaSdk ρ σ)
    (method endpoint : String) (token : Option String)
    (data params : Option Dict) (entity_id : Option String) :
    (VictoriabankMiaApi._send_request client method endpoint token data params
        entity_id).1 =
      [{ method := method, url := endpoint, data := data, params := params,
         token := token, entity_id := entity_id }] := by
  cases h : client.send_request
      { method := method, url := endpoint, data := data, params := params,
        token := token, entity_id := entity_id } <;>
    simp [VictoriabankMiaApi._send_request, h]

/-- With the per-operation validation and the token both passing, every
public operation is exactly a `_send_request` dispatch with the method,
endpoint, body, query parameters and entity identifier of its operation
descriptor. -/
lemma callOperation_valid_eq_send {ρ σ : Type} (client : VictoriabankMiaSdk ρ σ)
    (op : OpName) (a : CallArgs) (token : Option String)
    (hv : validNonTokenInputs op a) (ht : strTruthy token = true) :
    callOperation (VictoriabankMiaApi.mk client) op a token =
      VictoriabankMiaApi._send_request client (opMethod op) (opEndpoint op) token
        (opSendData op a) (opSendParams op a) (opSendEntity op a) := by
  have htok := validate_access_token_ok_of_truthy ht
  cases op with
  | qrCreate =>
    simp only [validNonTokenInputs] at hv
    simp [callOperation, VictoriabankMiaApi.qr_create,
      VictoriabankMiaApi._execute_operation, hv, htok,
      opMethod, opEndpoint, opSendData, opSendParams, opSendEntity, isEntityIdOperation]
  | testPay =>
    simp only [validNonTokenInputs] at hv
    simp [callOperation, VictoriabankMiaApi.test_pay,
      VictoriabankMiaApi._execute_operation, hv, htok,
      opMethod, opEndpoint, opSendData, opSendParams, opSendEntity, isEntityIdOperation]
  | transactionsList =>
    simp [callOperation, VictoriabankMiaApi.transactions_list,
      VictoriabankMiaApi._execute_operation, VictoriabankMiaApi._validate_params,
      dictTruthy, listTruthy, htok,
      opMethod, opEndpoint, opSendData, opSendParams, opSendEntity, isEntityIdOperation]
  | paymentList =>
    simp [callOperation, VictoriabankMiaApi.payment_list,
      VictoriabankMiaApi._execute_operation, VictoriabankMiaApi._validate_params,
      dictTruthy, listTruthy, htok,
      opMethod, opEndpoint, opSendData, opSendParams, opSendEntity, isEntityIdOperation]
  | qrStatus =>
    simp only [validNonTokenInputs] at hv
    simp [callOperation, VictoriabankMiaApi.qr_status,
      VictoriabankMiaApi._execute_entity_id_operation,
      validate_id_ok_of_truthy hv, htok,
      opMethod, opEndpoint, opSendData, opSendParams, opSendEntity, isEntityIdOperation]
  | qrCancel =>
    simp only [validNonTokenInputs] at hv
    simp [callOperation, VictoriabankMiaApi.qr_cancel,
      VictoriabankMiaApi._execute_entity_id_operation,
      validate_id_ok_of_truthy hv, htok,
      opMethod, opEndpoint, opSendData, opSendParams, opSendEntity, isEntityIdOperation]
  | qrCreateExtension =>
    simp only [validNonTokenInputs] at hv
    simp [callOperation, VictoriabankMiaApi.qr_create_extension,
      VictoriabankMiaApi._execute_entity_id_operation,
      validate_id_ok_of_truthy hv, htok,
      opMethod, opEndpoint, opSendData, opSendParams, opSendEntity, isEntityIdOperation]
  | qrCancelExtension =>
    simp only [validNonTokenInputs] at hv
    simp [callOperation, VictoriabankMiaApi.qr_cancel_extension,
      VictoriabankMiaApi._execute_entity_id_operation,
      validate_id_ok_of_truthy hv, htok,
      opMethod, opEndpoint, opSendData, opSendParams, opSendEntity, isEntityIdOperation]
  | qrExtensionStatus =>
    simp only [validNonTokenInputs] at hv
    simp [callOperation, VictoriabankMiaApi.qr_extension_status,
      VictoriabankMiaApi._execute_entity_id_operation,
      validate_id_ok_of_truthy hv, htok,
      opMethod, opEndpoint, opSendData, opSendParams, opSendEntity, isEntityIdOperation]
  | paymentDetails =>
    simp only [validNonTokenInputs] at hv
    simp [callOperation, VictoriabankMiaApi.payment_details,
      VictoriabankMiaApi._execute_entity_id_operation,
      validate_id_ok_of_truthy hv, htok,
      opMethod, opEndpoint, opSendData, opSendParams, opSendEntity, isEntityIdOperation]
  | paymentRefund =>
    simp only [validNonTokenInputs] at hv
    simp [callOperation, VictoriabankMiaApi.payment_refund,
      VictoriabankMiaApi._execute_entity_id_operation,
      validate_id_ok_of_truthy hv, htok,
      opMethod, opEndpoint, opSendData, opSendParams, opSendEntity, isEntityIdOperation]

/-- When its params validation succeeds and the token is falsy,
`_execute_operation` stops with the token error and an empty trace. -/
lemma execute_operation_token_fail {ρ σ : Type} (api : VictoriabankMiaApi ρ σ)
    (endpoint : String) (data : Option Dict) (token : Option String)
    (required_params : Option (List String)) (method : String) (params : Option Dict)
    (b : Bool)
    (hd : VictoriabankMiaApi._validate_params data required_params = Except.ok b)
    (ht : strTruthy token = false) :
    api._execute_operation endpoint data token required_params method params =
      ([], Except.error (ApiError.payment
        "Access token is not valid. It should be a non-empty string." none)) := by
  simp [VictoriabankMiaApi._execute_operation, hd, validate_access_token_fail_of_falsy ht]

/-- When its id validation succeeds and the token is falsy,
`_execute_entity_id_operation` stops with the token error and an empty trace. -/
lemma execute_entity_id_token_fail {ρ σ : Type} (api : VictoriabankMiaApi ρ σ)
    (endpoint : String) (entity_id : Option String) (token : Option String)
    (method : String) (data : Option Dict) (params : Option Dict)
    (hid : VictoriabankMiaApi._validate_id_param entity_id = Except.ok ())
    (ht : strTruthy token = false) :
    api._execute_entity_id_operation endpoint entity_id token method data params =
      ([], Except.error (ApiError.payment
        "Access token is not valid. It should be a non-empty string." none)) := by
  simp [VictoriabankMiaApi._execute_entity_id_operation, hid,
    validate_access_token_fail_of_falsy ht]

/-- C4: for every operation, a missing (`None`) or empty-string token makes the
call raise the domain token error with the transport send never invoked (empty
trace), whenever the payload or identifier itself passes its own validation. -/
theorem token_error_before_any_dispatch :
    ∀ (ρ σ : Type) (client : VictoriabankMiaSdk ρ σ) (op : OpName) (a : CallArgs)
      (token : Option String),
      validNonTokenInputs op a → strTruthy token = false →
      callOperation (VictoriabankMiaApi.mk client) op a token =
        ([], Except.error (ApiError.payment
          "Access token is not valid. It should be a non-empty string." none)) := by
  intro ρ σ client op a token hv ht
  cases op with
  | qrCreate =>
    simp only [validNonTokenInputs] at hv
    exact execute_operation_token_fail _ _ _ _ _ _ _ _ hv ht
  | testPay =>
    simp only [validNonTokenInputs] at hv
    exact execute_operation_token_fail _ _ _ _ _ _ _ _ hv ht
  | transactionsList =>
    exact execute_operation_token_fail (VictoriabankMiaApi.mk client)
      VictoriabankMiaSdk.MIA_TRANSACTIONS_LIST none token none "GET" a.params true rfl ht
  | paymentList =>
    exact execute_operation_token_fail (VictoriabankMiaApi.mk client)
      VictoriabankMiaSdk.MIA_PAYMENTS none token none "GET" a.params true rfl ht
  | qrStatus =>
    simp only [validNonTokenInputs] at hv
    exact execute_entity_id_token_fail _ _ _ _ _ _ _ (validate_id_ok_of_truthy hv) ht
  | qrCancel =>
    simp only [validNonTokenInputs] at hv
    exact execute_entity_id_token_fail _ _ _ _ _ _ _ (validate_id_ok_of_truthy hv) ht
  | qrCreateExtension =>
    simp only [validNonTokenInputs] at hv
    exact execute_entity_id_token_fail _ _ _ _ _ _ _ (validate_id_ok_of_truthy hv) ht
  | qrCancelExtension =>
    simp only [validNonTokenInputs] at hv
    exact execute_entity_id_token_fail _ _ _ _ _ _ _ (validate_id_ok_of_truthy hv) ht
  | qrExtensionStatus =>
    simp only [validNonTokenInputs] at hv
    exact execute_entity_id_token_fail _ _ _ _ _ _ _ (validate_id_ok_of_truthy hv) ht
  | paymentDetails =>
    simp only [validNonTokenInputs] at hv
    exact execute_entity_id_token_fail _ _ _ _ _ _ _ (validate_id_ok_of_truthy hv) ht
  | paymentRefund =>
    simp only [validNonTokenInputs] at hv
    exact execute_entity_id_token_fail _ _ _ _ _ _ _ (validate_id_ok_of_truthy hv) ht

/-- Witness for C4: `qr_cancel` with the valid identifier `"abc-123"` and the
missing token raises the token error and performs no send. -/
theorem token_error_before_any_dispatch_witness :
    validNonTokenInputs OpName.qrCancel
      { entity := some "abc-123", data := none, params := none } ∧
    strTruthy none = false ∧
    callOperation (VictoriabankMiaApi.mk okClient) OpName.qrCancel
      { entity := some "abc-123", data := none, params := none } none =
      ([], Except.error (ApiError.payment
        "Access token is not valid. It should be a non-empty string." none)) :=
  ⟨by decide, by decide,
    token_error_before_any_dispatch Nat Nat okClient OpName.qrCancel
      { entity := some "abc-123", data := none, params := none } none
      (by decide) (by decide)⟩

/-- C5: for every identifier-based operation, a missing (`None`) or
empty-string identifier makes the call raise the missing-id error with the
transport send never invoked (empty trace), for every token. -/
theorem id_error_before_any_dispatch :
    ∀ (ρ σ : Type) (client : VictoriabankMiaSdk ρ σ) (op : OpName) (a : CallArgs)
      (token : Option String),
      isEntityIdOperation op = true → strTruthy a.entity = false →
      callOperation (VictoriabankMiaApi.mk client) op a token =
        ([], Except.error (ApiError.payment "Missing ID." none)) := by
  intro ρ σ client op a token hop hid
  have hfail := validate_id_fail_of_falsy hid
  cases op <;>
    simp [isEntityIdOperation] at hop <;>
    simp [callOperation, VictoriabankMiaApi.qr_status, VictoriabankMiaApi.qr_cancel,
      VictoriabankMiaApi.qr_create_extension, VictoriabankMiaApi.qr_cancel_extension,
      VictoriabankMiaApi.qr_extension_status, VictoriabankMiaApi.payment_details,
      VictoriabankMiaApi.payment_refund,
      VictoriabankMiaApi._execute_entity_id_operation, hfail]

/-- Witness for C5: `qr_status` with the empty-string identifier raises the
missing-id error and performs no send. -/
theorem id_error_before_any_dispatch_witness :
    isEntityIdOperation OpName.qrStatus = true ∧
    strTruthy (some "") = false ∧
    callOperation (VictoriabankMiaApi.mk okClient) OpName.qrStatus
      { entity := some "", data := none, params := none } (some "tok") =
      ([], Except.error (ApiError.payment "Missing ID." none)) :=
  ⟨by decide, by decide,
    id_error_before_any_dispatch Nat Nat okClient OpName.qrStatus
      { entity := some "", data := none, params := none } (some "tok")
      (by decide) (by decide)⟩

/-- C9: validation order is fixed. In `_execute_operation` a failing
required-field check wins over a falsy token, and in
`_execute_entity_id_operation` a failing identifier check wins over a falsy
token: in both cases the first validator's error is the one raised and no
send occurs. -/
theorem payload_and_id_validation_precede_token :
    (∀ (ρ σ : Type) (api : VictoriabankMiaApi ρ σ) (endpoint : String)
       (data : Option Dict) (token : Option String)
       (required_params : Option (List String)) (method : String)
       (params : Option Dict) (m : String),
       VictoriabankMiaApi._validate_params data required_params = Except.error m →
       strTruthy token = false →
       api._execute_operation endpoint data token required_params method params =
         ([], Except.error (ApiError.payment m none))) ∧
    (∀ (ρ σ : Type) (api : VictoriabankMiaApi ρ σ) (endpoint : String)
       (entity_id : Option String) (token : Option String) (method : String)
       (data : Option Dict) (params : Option Dict) (m : String),
       VictoriabankMiaApi._validate_id_param entity_id = Except.error m →
       strTruthy token = false →
       api._execute_entity_id_operation endpoint entity_id token method data params =
         ([], Except.error (ApiError.payment m none))) := by
  constructor
  · intro ρ σ api endpoint data token required_params method params m hm ht
    simp [VictoriabankMiaApi._execute_operation, hm]
  · intro ρ σ api endpoint entity_id token method data params m hm ht
    simp [VictoriabankMiaApi._execute_entity_id_operation, hm]

/-- Witness for C9: with the payload missing `header` and an empty token,
`_execute_operation` raises the missing-field error, not the token error; with
a `None` identifier and an empty token, `_execute_entity_id_operation` raises
the missing-id error, not the token error. -/
theorem payload_and_id_validation_precede_token_witness :
    VictoriabankMiaApi._validate_params (some [("x", some "1")]) (some ["header"]) =
      Except.error "Missing required parameter: header" ∧
    strTruthy (some "") = false ∧
    (VictoriabankMiaApi.mk okClient)._execute_operation "ep" (some [("x", some "1")])
      (some "") (some ["header"]) "POST" none =
      ([], Except.error (ApiError.payment "Missing required parameter: header" none)) ∧
    (VictoriabankMiaApi.mk okClient)._execute_entity_id_operation "ep" none (some "")
      "GET" none none =
      ([], Except.error (ApiError.payment "Missing ID." none)) :=
  ⟨by decide, by decide,
    payload_and_id_validation_precede_token.1 Nat Nat (VictoriabankMiaApi.mk okClient)
      "ep" (some [("x", some "1")]) (some "") (some ["header"]) "POST" none
      "Missing required parameter: header" (by decide) (by decide),
    payload_and_id_validation_precede_token.2 Nat Nat (VictoriabankMiaApi.mk okClient)
      "ep" none (some "") "GET" none none "Missing ID." (by decide) (by decide)⟩

/-- C10: for every identifier value, `_validate_id_param` either raises
`Missing ID.` or returns without error; the 36-character message of its second
branch is never produced. -/
theorem id_param_36_char_branch_unreachable :
    ∀ (entity_id : Option String),
      (VictoriabankMiaApi._validate_id_param entity_id = Except.error "Missing ID." ∨
       VictoriabankMiaApi._validate_id_param entity_id = Except.ok ()) ∧
      VictoriabankMiaApi._validate_id_param entity_id ≠
        Except.error "Invalid ID parameter. Should be string of 36 characters." := by
  intro entity_id
  cases hb : strTruthy entity_id with
  | false =>
    rw [validate_id_fail_of_falsy hb]
    exact ⟨Or.inl rfl, by decide⟩
  | true =>
    rw [validate_id_ok_of_truthy hb]
    exact ⟨Or.inr rfl, by decide⟩

/-- C1 counterexample: with the empty-dict payload the required field `header`
is missing (absent), yet `qr_create` raises no missing-field error and invokes
the transport send once, succeeding. -/
theorem qr_create_empty_payload_cex :
    dictGet [] "header" = none ∧
    (VictoriabankMiaApi.mk okClient).qr_create (some []) none (some "tok") =
      ([{ method := "POST", url := VictoriabankMiaSdk.MIA_QR, data := some [],
          params := none, token := some "tok", entity_id := none }], Except.ok 1) ∧
    (VictoriabankMiaApi.mk okClient).qr_create (some []) none (some "tok") ≠
      ([], Except.error (ApiError.payment "Missing required parameter: header" none)) := by
  decide

/-- C1 (amended): for `qr_create` (fields `header`, `extension`) and `test_pay`
(field `qrHeaderUUID`), calling with a non-empty payload in which some required
field is missing (absent or mapped to `None`) raises the domain missing-field
error naming the first missing required field, and the transport send is never
invoked (empty trace), for every token and every client. -/
theorem missing_required_field_rejected :
    (∀ (ρ σ : Type) (client : VictoriabankMiaSdk ρ σ) (d : Dict)
       (params : Option Dict) (token : Option String) (f : String),
       d ≠ [] →
       VictoriabankMiaApi.REQUIRED_QR_PARAMS.find?
           (fun p => (dictGet d p).isNone) = some f →
       (VictoriabankMiaApi.mk client).qr_create (some d) params token =
         ([], Except.error (ApiError.payment
           ("Missing required parameter: " ++ f) none))) ∧
    (∀ (ρ σ : Type) (client : VictoriabankMiaSdk ρ σ) (d : Dict)
       (token : Option String) (f : String),
       d ≠ [] →
       VictoriabankMiaApi.REQUIRED_TEST_PAY_PARAMS.find?
           (fun p => (dictGet d p).isNone) = some f →
       (VictoriabankMiaApi.mk client).test_pay (some d) token =
         ([], Except.error (ApiError.payment
           ("Missing required parameter: " ++ f) none))) := by
  constructor
  · intro ρ σ client d params token f hd hf
    simp [VictoriabankMiaApi.qr_create, VictoriabankMiaApi._execute_operation,
      validate_params_error_of_find hd hf]
  · intro ρ σ client d token f hd hf
    simp [VictoriabankMiaApi.test_pay, VictoriabankMiaApi._execute_operation,
      validate_params_error_of_find hd hf]

/-- Witness for C1 (amended): the nonempty payload holding only `extension`
makes `qr_create` fail naming `header`, with no send. -/
theorem missing_required_field_rejected_witness :
    ([("extension", some "E")] : Dict) ≠ [] ∧
    VictoriabankMiaApi.REQUIRED_QR_PARAMS.find?
        (fun p => (dictGet [("extension", some "E")] p).isNone) = some "header" ∧
    (VictoriabankMiaApi.mk okClient).qr_create
        (some [("extension", some "E")]) none (some "tok") =
      ([], Except.error (ApiError.payment
        ("Missing required parameter: " ++ "header") none)) :=
  ⟨by decide, by decide,
    missing_required_field_rejected.1 Nat Nat okClient [("extension", some "E")]
      none (some "tok") "header" (by decide) (by decide)⟩

/-- C2: with a payload providing non-null `header` and `extension` and a
non-empty token, `qr_create` invokes the transport send exactly once, with
method POST, the QR-create endpoint, that payload as the body and that token,
and returns exactly `handle_response` applied to the raw response. -/
theorem qr_create_valid_dispatch
    (ρ σ : Type) (client : VictoriabankMiaSdk ρ σ) (d : Dict) (params : Option Dict)
    (t : String) (r : ρ)
    (hh : dictGet d "header" ≠ none) (he : dictGet d "extension" ≠ none)
    (ht : t ≠ "")
    (hs : client.send_request
        { method := "POST", url := VictoriabankMiaSdk.MIA_QR, data := some d,
          params := params, token := some t, entity_id := none } = Except.ok r) :
    (VictoriabankMiaApi.mk client).qr_create (some d) params (some t) =
      ([{ method := "POST", url := VictoriabankMiaSdk.MIA_QR, data := some d,
          params := params, token := some t, entity_id := none }],
        Except.ok (client.handle_response r VictoriabankMiaSdk.MIA_QR)) := by
  have hd : d ≠ [] := by
    intro hnil
    subst hnil
    exact hh rfl
  have hde : List.isEmpty d = false := by
    cases d with
    | nil => exact absurd rfl hd
    | cons x xs => rfl
  have hv : VictoriabankMiaApi._validate_params (some d)
      (some VictoriabankMiaApi.REQUIRED_QR_PARAMS) = Except.ok true := by
    simp [VictoriabankMiaApi._validate_params, dictTruthy, listTruthy, hde,
      VictoriabankMiaApi.REQUIRED_QR_PARAMS, VictoriabankMiaApi.requiredLoop,
      hh, he, Except.map]
  have h := callOperation_valid_eq_send client OpName.qrCreate
      { entity := none, data := some d, params := params } (some t) hv
      (by simp [strTruthy, ht])
  simp only [callOperation, opMethod, opEndpoint, opSendData, opSendParams,
    opSendEntity, isEntityIdOperation] at h
  rw [h]
  simp [VictoriabankMiaApi._send_request, hs]

/-- Witness for C2: a concrete valid payload and token make `qr_create` return
the client's decoded result of the dispatched POST. -/
theorem qr_create_valid_dispatch_witness :
    dictGet [("header", some "H"), ("extension", some "E")] "header" ≠ none ∧
    ("tok" : String) ≠ "" ∧
    (VictoriabankMiaApi.mk okClient).qr_create
        (some [("header", some "H"), ("extension", some "E")]) none (some "tok") =
      ([{ method := "POST", url := VictoriabankMiaSdk.MIA_QR,
          data := some [("header", some "H"), ("extension", some "E")], params := none,
          token := some "tok", entity_id := none }],
        Except.ok (okClient.handle_response 0 VictoriabankMiaSdk.MIA_QR)) :=
  ⟨by decide, by decide,
    qr_create_valid_dispatch Nat Nat okClient
      [("header", some "H"), ("extension", some "E")] none "tok" 0
      (by decide) (by decide) (by decide) rfl⟩

/-- C3: for every operation whose validations pass, an exception raised by the
transport send is caught and re-raised as the single domain payment exception
whose message carries the HTTP verb and the endpoint and whose cause is the
underlying exception; a raw transport exception never reaches the caller. -/
theorem transport_exception_wrapped :
    ∀ (ρ σ : Type) (client : VictoriabankMiaSdk ρ σ) (op : OpName) (a : CallArgs)
      (token : Option String) (ex : String),
      validNonTokenInputs op a → strTruthy token = true →
      client.send_request
        { method := opMethod op, url := opEndpoint op, data := opSendData op a,
          params := opSendParams op a, token := token,
          entity_id := opSendEntity op a } = Except.error ex →
      callOperation (VictoriabankMiaApi.mk client) op a token =
        ([{ method := opMethod op, url := opEndpoint op, data := opSendData op a,
            params := opSendParams op a, token := token,
            entity_id := opSendEntity op a }],
          Except.error (ApiError.payment
            ("HTTP error while sending " ++ opMethod op ++ " request to endpoint "
              ++ opEndpoint op ++ ": " ++ ex) (some ex))) ∧
      ∀ (e : String),
        (callOperation (VictoriabankMiaApi.mk client) op a token).2 ≠
          Except.error (ApiError.transportLeak e) := by
  intro ρ σ client op a token ex hv ht hs
  rw [callOperation_valid_eq_send client op a token hv ht]
  constructor
  · simp [VictoriabankMiaApi._send_request, hs]
  · intro e
    simp [VictoriabankMiaApi._send_request, hs]

/-- Witness for C3: `qr_cancel` over the always-failing client surfaces the
wrapped domain exception carrying verb, endpoint and cause. -/
theorem transport_exception_wrapped_witness :
    validNonTokenInputs OpName.qrCancel
      { entity := some "abc-123", data := none, params := none } ∧
    failClient.send_request
      { method := opMethod OpName.qrCancel, url := opEndpoint OpName.qrCancel,
        data := opSendData OpName.qrCancel
          { entity := some "abc-123", data := none, params := none },
        params := opSendParams OpName.qrCancel
          { entity := some "abc-123", data := none, params := none },
        token := some "tok",
        entity_id := opSendEntity OpName.qrCancel
          { entity := some "abc-123", data := none, params := none } } =
      Except.error "boom" ∧
    callOperation (VictoriabankMiaApi.mk failClient) OpName.qrCancel
      { entity := some "abc-123", data := none, params := none } (some "tok") =
      ([{ method := opMethod OpName.qrCancel, url := opEndpoint OpName.qrCancel,
          data := opSendData OpName.qrCancel
            { entity := some "abc-123", data := none, params := none },
          params := opSendParams OpName.qrCancel
            { entity := some "abc-123", data := none, params := none },
          token := some "tok",
          entity_id := opSendEntity OpName.qrCancel
            { entity := some "abc-123", data := none, params := none } }],
        Except.error (ApiError.payment
          ("HTTP error while sending " ++ opMethod OpName.qrCancel
            ++ " request to endpoint " ++ opEndpoint OpName.qrCancel ++ ": " ++ "boom")
          (some "boom"))) :=
  ⟨by decide, rfl,
    (transport_exception_wrapped Nat Nat failClient OpName.qrCancel
      { entity := some "abc-123", data := none, params := none } (some "tok") "boom"
      (by decide) (by decide) rfl).1⟩

/-- C6: identifier validation enforces only non-emptiness: every non-empty
string identifier, of any length, passes `_validate_id_param`, and every
identifier-based operation called with it and a valid token proceeds to
dispatch exactly one transport send carrying that identifier. -/
theorem id_validation_only_nonemptiness :
    ∀ (s : String), s ≠ "" →
      VictoriabankMiaApi._validate_id_param (some s) = Except.ok () ∧
      ∀ (ρ σ : Type) (client : VictoriabankMiaSdk ρ σ) (op : OpName) (a : CallArgs)
        (t : String),
        isEntityIdOperation op = true → a.entity = some s → t ≠ "" →
        (callOperation (VictoriabankMiaApi.mk client) op a (some t)).1 =
          [{ method := opMethod op, url := opEndpoint op, data := opSendData op a,
             params := opSendParams op a, token := some t, entity_id := some s }] := by
  intro s hs
  have hst : strTruthy (some s) = true := by simp [strTruthy, hs]
  refine ⟨validate_id_ok_of_truthy hst, ?_⟩
  intro ρ σ client op a t hop ha ht
  have hv : validNonTokenInputs op a := by
    cases op <;> simp [isEntityIdOperation] at hop <;>
      simp [validNonTokenInputs, ha, hst]
  rw [callOperation_valid_eq_send client op a (some t) hv (by simp [strTruthy, ht])]
  rw [send_request_trace]
  simp [opSendEntity, hop, ha]

/-- Witness for C6: the 7-character identifier `"abc-123"` (not 36 characters)
passes validation, and `qr_status` with it and an empty params mapping
dispatches one GET carrying it. -/
theorem id_validation_only_nonemptiness_witness :
    ("abc-123" : String) ≠ "" ∧
    VictoriabankMiaApi._validate_id_param (some "abc-123") = Except.ok () ∧
    (callOperation (VictoriabankMiaApi.mk okClient) OpName.qrStatus
        { entity := some "abc-123", data := none, params := some [] } (some "tok")).1 =
      [{ method := opMethod OpName.qrStatus, url := opEndpoint OpName.qrStatus,
         data := opSendData OpName.qrStatus
           { entity := some "abc-123", data := none, params := some [] },
         params := opSendParams OpName.qrStatus
           { entity := some "abc-123", data := none, params := some [] },
         token := some "tok", entity_id := some "abc-123" }] :=
  ⟨by decide, (id_validation_only_nonemptiness "abc-123" (by decide)).1,
    (id_validation_only_nonemptiness "abc-123" (by decide)).2 Nat Nat okClient
      OpName.qrStatus { entity := some "abc-123", data := none, params := some [] }
      "tok" (by decide) rfl (by decide)⟩

/-- C7: every operation with passing validations dispatches exactly one send
whose verb and endpoint are those of the operation table; in particular
`qr_cancel` sends DELETE to the QR-cancel endpoint and `payment_refund` sends
POST to the payment-refund endpoint. -/
theorem dispatch_follows_operation_table :
    (∀ (ρ σ : Type) (client : VictoriabankMiaSdk ρ σ) (op : OpName) (a : CallArgs)
       (token : Option String),
       validNonTokenInputs op a → strTruthy token = true →
       (callOperation (VictoriabankMiaApi.mk client) op a token).1 =
         [{ method := opMethod op, url := opEndpoint op, data := opSendData op a,
            params := opSendParams op a, token := token,
            entity_id := opSendEntity op a }]) ∧
    (∀ (ρ σ : Type) (client : VictoriabankMiaSdk ρ σ) (i t : String),
       i ≠ "" → t ≠ "" →
       ((VictoriabankMiaApi.mk client).qr_cancel (some i) (some t)).1 =
         [{ method := "DELETE", url := VictoriabankMiaSdk.MIA_QR_ID, data := none,
            params := none, token := some t, entity_id := some i }]) ∧
    (∀ (ρ σ : Type) (client : VictoriabankMiaSdk ρ σ) (i t : String)
       (data : Option Dict),
       i ≠ "" → t ≠ "" →
       ((VictoriabankMiaApi.mk client).payment_refund (some i) data (some t)).1 =
         [{ method := "POST", url := VictoriabankMiaSdk.MIA_PAYMENTS_REFUND,
            data := data, params := none, token := some t, entity_id := some i }]) := by
  have main : ∀ (ρ σ : Type) (client : VictoriabankMiaSdk ρ σ) (op : OpName)
      (a : CallArgs) (token : Option String),
      validNonTokenInputs op a → strTruthy token = true →
      (callOperation (VictoriabankMiaApi.mk client) op a token).1 =
        [{ method := opMethod op, url := opEndpoint op, data := opSendData op a,
           params := opSendParams op a, token := token,
           entity_id := opSendEntity op a }] := by
    intro ρ σ client op a token hv ht
    rw [callOperation_valid_eq_send client op a token hv ht]
    exact send_request_trace client (opMethod op) (opEndpoint op) token
      (opSendData op a) (opSendParams op a) (opSendEntity op a)
  refine ⟨main, ?_, ?_⟩
  · intro ρ σ client i t hi ht
    have h := main ρ σ client OpName.qrCancel
      { entity := some i, data := none, params := none } (some t)
      (by simp [validNonTokenInputs, strTruthy, hi]) (by simp [strTruthy, ht])
    simpa [callOperation, opMethod, opEndpoint, opSendData, opSendParams,
      opSendEntity, isEntityIdOperation] using h
  · intro ρ σ client i t data hi ht
    have h := main ρ σ client OpName.paymentRefund
      { entity := some i, data := data, params := none } (some t)
      (by simp [validNonTokenInputs, strTruthy, hi]) (by simp [strTruthy, ht])
    simpa [callOperation, opMethod, opEndpoint, opSendData, opSendParams,
      opSendEntity, isEntityIdOperation] using h

/-- Witness for C7: concrete `qr_cancel` and `payment_refund` calls dispatch
DELETE and POST to their endpoints. -/
theorem dispatch_follows_operation_table_witness :
    ("abc-123" : String) ≠ "" ∧ ("tok" : String) ≠ "" ∧
    ((VictoriabankMiaApi.mk okClient).qr_cancel (some "abc-123") (some "tok")).1 =
      [{ method := "DELETE", url := VictoriabankMiaSdk.MIA_QR_ID, data := none,
         params := none, token := some "tok", entity_id := some "abc-123" }] ∧
    ((VictoriabankMiaApi.mk okClient).payment_refund (some "abc-123")
        (some [("amount", some "10")]) (some "tok")).1 =
      [{ method := "POST", url := VictoriabankMiaSdk.MIA_PAYMENTS_REFUND,
         data := some [("amount", some "10")], params := none, token := some "tok",
         entity_id := some "abc-123" }] :=
  ⟨by decide, by decide,
    dispatch_follows_operation_table.2.1 Nat Nat okClient "abc-123" "tok"
      (by decide) (by decide),
    dispatch_follows_operation_table.2.2 Nat Nat okClient "abc-123" "tok"
      (some [("amount", some "10")]) (by decide) (by decide)⟩

/-- C8: a `None` or empty-dict payload skips the required-field check entirely
in `qr_create` and `test_pay`: with a valid token the call equals the transport
dispatch with that payload as the body, and the send is invoked once with it. -/
theorem falsy_payload_skips_required_check :
    ∀ (ρ σ : Type) (client : VictoriabankMiaSdk ρ σ) (data : Option Dict)
      (params : Option Dict) (t : String),
      (data = none ∨ data = some []) → t ≠ "" →
      ((VictoriabankMiaApi.mk client).qr_create data params (some t) =
          VictoriabankMiaApi._send_request client "POST" VictoriabankMiaSdk.MIA_QR
            (some t) data params none ∧
        ((VictoriabankMiaApi.mk client).qr_create data params (some t)).1 =
          [{ method := "POST", url := VictoriabankMiaSdk.MIA_QR, data := data,
             params := params, token := some t, entity_id := none }]) ∧
      ((VictoriabankMiaApi.mk client).test_pay data (some t) =
          VictoriabankMiaApi._send_request client "POST"
            VictoriabankMiaSdk.SANDBOX_DEMOPAY_URL (some t) data none none ∧
        ((VictoriabankMiaApi.mk client).test_pay data (some t)).1 =
          [{ method := "POST", url := VictoriabankMiaSdk.SANDBOX_DEMOPAY_URL,
             data := data, params := none, token := some t, entity_id := none }]) := by
  intro ρ σ client data params t hdata ht
  have hft : dictTruthy data = false := by
    rcases hdata with h | h <;> subst h <;> rfl
  have hv1 := validate_params_skip_of_falsy hft
    (some VictoriabankMiaApi.REQUIRED_QR_PARAMS)
  have hv2 := validate_params_skip_of_falsy hft
    (some VictoriabankMiaApi.REQUIRED_TEST_PAY_PARAMS)
  have h1 := callOperation_valid_eq_send client OpName.qrCreate
    { entity := none, data := data, params := params } (some t) hv1
    (by simp [strTruthy, ht])
  have h2 := callOperation_valid_eq_send client OpName.testPay
    { entity := none, data := data, params := none } (some t) hv2
    (by simp [strTruthy, ht])
  simp only [callOperation, opMethod, opEndpoint, opSendData, opSendParams,
    opSendEntity, isEntityIdOperation, if_false, Bool.false_eq_true] at h1 h2
  refine ⟨⟨h1, ?_⟩, h2, ?_⟩
  · rw [h1]
    exact send_request_trace client "POST" VictoriabankMiaSdk.MIA_QR (some t)
      data params none
  · rw [h2]
    exact send_request_trace client "POST" VictoriabankMiaSdk.SANDBOX_DEMOPAY_URL
      (some t) data none none

/-- Witness for C8: `qr_create` with the `None` payload and `test_pay` with the
empty-dict payload both dispatch, with those payloads as the bodies. -/
theorem falsy_payload_skips_required_check_witness :
    ("tok" : String) ≠ "" ∧
    ((VictoriabankMiaApi.mk okClient).qr_create none none (some "tok")).1 =
      [{ method := "POST", url := VictoriabankMiaSdk.MIA_QR, data := none,
         params := none, token := some "tok", entity_id := none }] ∧
    ((VictoriabankMiaApi.mk okClient).test_pay (some []) (some "tok")).1 =
      [{ method := "POST", url := VictoriabankMiaSdk.SANDBOX_DEMOPAY_URL,
         data := some [], params := none, token := some "tok", entity_id := none }] :=
  ⟨by decide,
    (falsy_payload_skips_required_check Nat Nat okClient none none "tok"
      (Or.inl rfl) (by decide)).1.2,
    (falsy_payload_skips_required_check Nat Nat okClient (some []) none "tok"
      (Or.inr rfl) (by decide)).2.2⟩

/-- Witness for C10: at the concrete one-character identifier the validator
returns without error, and neither error message is produced. -/
theorem id_param_36_char_branch_unreachable_witness :
    (VictoriabankMiaApi._validate_id_param (some "x") = Except.error "Missing ID." ∨
     VictoriabankMiaApi._validate_id_param (some "x") = Except.ok ()) ∧
    VictoriabankMiaApi._validate_id_param (some "x") ≠
      Except.error "Invalid ID parameter. Should be string of 36 characters." :=
  id_param_36_char_branch_unreachable (some "x")
